import Mathlib

/-!
# Verification of the AI-Code-Assistant analysis and collaboration core

Shallow embedding of the heuristic code analyzer (`CodeAnalyzer` in
`src/advanced_code_assistant.py`), the collaboration session store
(`CodeAssistant.create_collaboration_session` / `join_collaboration_session` /
`update_collaboration_code`), and the demo bug detector
(`AICodeAssistant.detect_bugs` in `app.py`).

Python strings are modelled as `List Char`; `datetime.now()` is passed in as an
explicit `Nat` timestamp parameter; the in-memory session dictionary is an
insertion-ordered association list with Python-dict key semantics.
-/

namespace AICA

/-! ## String utilities mirroring the Python string operations used -/

/-- `s.lower()` on a Python string (ASCII-faithful). -/
def lowerChars (s : List Char) : List Char := s.map Char.toLower

/-- `code.split('\n')`: always returns at least one (possibly empty) line. -/
def splitLines : List Char → List (List Char)
  | [] => [[]]
  | c :: cs =>
    if c = '\n' then [] :: splitLines cs
    else
      match splitLines cs with
      | [] => [[c]]
      | l :: ls => (c :: l) :: ls

/-- Python's `needle in hay` substring test. -/
def containsSub (needle hay : List Char) : Bool :=
  hay.tails.any (fun t => needle.isPrefixOf t)

/-- Number of positions of `hay` at which `needle` occurs (occurrence count). -/
def occCount (needle hay : List Char) : Nat :=
  (hay.tails.filter (fun t => needle.isPrefixOf t)).length

/-- Truthiness of `line.strip()`: the line has a non-whitespace character. -/
def nonBlank (line : List Char) : Bool :=
  line.any (fun c => !c.isWhitespace)

/-! ## Data model (`LanguageType`, `AnalysisType`, `CodeAnalysisResult`,
`CollaborationSession` dataclasses) -/

inductive LanguageType where
  | python | javascript | typescript | java | cpp | csharp | go | rust
  | php | ruby | swift | kotlin | scala | r | sql | html | css
  deriving DecidableEq, Repr

inductive AnalysisType where
  | complexity | quality | security | performance | style | documentation
  deriving DecidableEq, Repr

/-- One element of a `CodeAnalysisResult.issues` list. The Python code stores
heterogeneous dicts; each analyzer's issue shape is captured by a field subset
(unused fields are `none`). -/
structure AnalysisIssue where
  issueType : String
  line : Option Nat
  length : Option Nat
  pattern : Option String
  severity : String
  deriving DecidableEq, Repr

/-- `CodeAnalysisResult` dataclass. Scores are integers in the fallback paths
(`max` of Python ints); metrics restricted to the integer-valued entries the
fallback analyzers produce. -/
structure CodeAnalysisResult where
  file_path : String
  language : LanguageType
  analysis_type : AnalysisType
  score : Int
  issues : List AnalysisIssue
  suggestions : List String
  metrics : List (String × Int)
  timestamp : Nat
  deriving DecidableEq, Repr

/-- `CollaborationSession` dataclass. -/
structure CollaborationSession where
  session_id : String
  participants : List String
  code_content : String
  language : LanguageType
  created_at : Nat
  last_modified : Nat
  is_active : Bool
  deriving DecidableEq, Repr

/-! ## Fallback complexity analysis (`CodeAnalyzer._basic_complexity_analysis`) -/

/-- The fixed keyword list `complexity_indicators`. -/
def complexity_indicators : List (List Char) :=
  [ "if".toList, "else".toList, "for".toList, "while".toList,
    "switch".toList, "case".toList, "try".toList, "catch".toList ]

/-- `sum(1 for line in non_empty_lines for indicator in complexity_indicators
if indicator in line.lower())`: each indicator counts at most once per
non-blank line. -/
def complexityCount (code : List Char) : Nat :=
  (((splitLines code).filter nonBlank).map
    (fun line =>
      (complexity_indicators.filter (fun ind => containsSub ind (lowerChars line))).length)).sum

/-- `CodeAnalyzer._basic_complexity_analysis`. -/
def basic_complexity_analysis (code : List Char) (language : LanguageType)
    (now : Nat) : CodeAnalysisResult :=
  let complexity_count := complexityCount code
  let score : Int := max 0 (100 - (complexity_count : Int) * 2)
  { file_path := "<string>"
    language := language
    analysis_type := AnalysisType.complexity
    score := score
    issues := []
    suggestions :=
      if complexity_count > 10 then
        ["Consider simplifying complex logic (found " ++ toString complexity_count
          ++ " complexity indicators)"]
      else []
    metrics := [("complexity_indicators", (complexity_count : Int)),
                ("lines_of_code", (((splitLines code).filter nonBlank).length : Int))]
    timestamp := now }

/-! ## Fallback security analysis (`CodeAnalyzer._basic_security_analysis`) -/

/-- The `security_patterns` dict, in insertion order. -/
def security_patterns : List (String × List String) :=
  [ ("sql_injection", ["SELECT", "INSERT", "UPDATE", "DELETE"]),
    ("xss", ["innerHTML", "document.write", "eval"]),
    ("hardcoded_secrets", ["password", "api_key", "secret", "token"]),
    ("unsafe_functions", ["exec", "system", "shell_exec"]) ]

/-- The issue appended for a matching pattern:
`{'type': issue_type, 'pattern': pattern, 'severity': 'medium'}`. -/
def securityIssue (issue_type pattern : String) : AnalysisIssue :=
  { issueType := issue_type, line := none, length := none,
    pattern := some pattern, severity := "medium" }

/-- The nested loop over `security_patterns`: one issue per pattern whose
lowercase form occurs in the lowercased code. -/
def securityIssuesOf (code : List Char) : List AnalysisIssue :=
  ((security_patterns.map (fun tp =>
      (tp.2.filter (fun p => containsSub (lowerChars p.toList) (lowerChars code))).map
        (fun p => securityIssue tp.1 p)))).flatten

/-- `CodeAnalyzer._basic_security_analysis`. -/
def basic_security_analysis (code : List Char) (language : LanguageType)
    (now : Nat) : CodeAnalysisResult :=
  let security_issues := securityIssuesOf code
  let score : Int := max 0 (100 - (security_issues.length : Int) * 10)
  { file_path := "<string>"
    language := language
    analysis_type := AnalysisType.security
    score := score
    issues := security_issues
    suggestions := security_issues.map
      (fun i => "Potential " ++ i.issueType ++ " risk with pattern")
    metrics := [("potential_issues", (security_issues.length : Int))]
    timestamp := now }

/-! ## Fallback style analysis (`CodeAnalyzer._basic_style_analysis`) -/

/-- The loop `for i, line in enumerate(lines, 1): if len(line) > 120`, producing
`{'type': 'line_too_long', 'line': i, 'length': len(line), 'severity': 'low'}`. -/
def styleIssuesOf (code : List Char) : List AnalysisIssue :=
  (splitLines code).enum.filterMap (fun il =>
    if il.2.length > 120 then
      some { issueType := "line_too_long", line := some (il.1 + 1),
             length := some il.2.length, pattern := none, severity := "low" }
    else none)

/-- `CodeAnalyzer._basic_style_analysis`. -/
def basic_style_analysis (code : List Char) (language : LanguageType)
    (now : Nat) : CodeAnalysisResult :=
  let issues := styleIssuesOf code
  let score : Int := max 0 (100 - (issues.length : Int) * 5)
  { file_path := "<string>"
    language := language
    analysis_type := AnalysisType.style
    score := score
    issues := issues
    suggestions := issues.map
      (fun i => "Line is too long (" ++ toString (i.length.getD 0) ++ " characters)")
    metrics := [("style_issues", (issues.length : Int))]
    timestamp := now }

/-! ## Python-path score formulas

For `language == PYTHON` the analyzers call external tools (radon, bandit,
pylint); the tool findings enter the score computation as data. The score
formulas themselves are from the source (`analyze_complexity`,
`analyze_security`, `analyze_style`); the findings are parameters. -/

/-- `score = max(0, 100 - (avg_complexity * 5))` where `avg_complexity` is the
mean of the radon block complexities (0 when there are no blocks). -/
def pythonComplexityScore (blockComplexities : List Nat) : ℚ :=
  let avg : ℚ :=
    if blockComplexities.isEmpty then 0
    else (blockComplexities.sum : ℚ) / (blockComplexities.length : ℚ)
  max 0 (100 - avg * 5)

/-- `score = max(0, 100 - (high*20 + medium*10 + low*5))` over the bandit
severity counts. -/
def pythonSecurityScore (high medium low : Nat) : Int :=
  max 0 (100 - ((high : Int) * 20 + (medium : Int) * 10 + (low : Int) * 5))

/-- `score = max(0, 100 - len(issues) * 2)` over the pylint issue count. -/
def pythonStyleScore (issueCount : Nat) : Int :=
  max 0 (100 - (issueCount : Int) * 2)

/-! ## Session store (`CodeAssistant.collaboration_sessions` and its three
operations)

The `collaboration_sessions` Python dict is an insertion-ordered association
list; `storeLookup` is `d[k]` / `k in d`, `storeSet` is `d[k] = v` (replace in
place when the key exists, append otherwise). Python mutates the session
object held by the dict; here the updated session is written back under its
key. -/

abbrev SessionStore := List (String × CollaborationSession)

def storeLookup : SessionStore → String → Option CollaborationSession
  | [], _ => none
  | (k, v) :: rest, sid => if k = sid then some v else storeLookup rest sid

def storeSet : SessionStore → String → CollaborationSession → SessionStore
  | [], k, v => [(k, v)]
  | (k', v') :: rest, k, v =>
    if k' = k then (k, v) :: rest else (k', v') :: storeSet rest k v

/-- `CodeAssistant.create_collaboration_session`: builds a fresh session
(empty participants, active) and stores it under `session_id`,
unconditionally — there is no duplicate check. Returns the session and the
new store. -/
def create_collaboration_session (store : SessionStore) (session_id : String)
    (initial_code : String) (language : LanguageType) (now : Nat) :
    CollaborationSession × SessionStore :=
  let session : CollaborationSession :=
    { session_id := session_id
      participants := []
      code_content := initial_code
      language := language
      created_at := now
      last_modified := now
      is_active := true }
  (session, storeSet store session_id session)

/-- `CodeAssistant.join_collaboration_session`: when the id is present, append
the user to `participants` unless already there and return the session;
otherwise return `None` (no session state touched). -/
def join_collaboration_session (store : SessionStore) (session_id user_id : String) :
    Option CollaborationSession × SessionStore :=
  match storeLookup store session_id with
  | some session =>
    let session' :=
      if user_id ∈ session.participants then session
      else { session with participants := session.participants ++ [user_id] }
    (some session', storeSet store session_id session')
  | none => (none, store)

/-- `CodeAssistant.update_collaboration_code`: when the id is present, replace
`code_content`, stamp `last_modified`, return `True`; otherwise return
`False`. The `user_id` argument and the `is_active` flag are not consulted. -/
def update_collaboration_code (store : SessionStore) (session_id new_code : String)
    (user_id : String) (now : Nat) : Bool × SessionStore :=
  match storeLookup store session_id with
  | some session =>
    (true, storeSet store session_id
      { session with code_content := new_code, last_modified := now })
  | none => (false, store)

/-! ## Demo bug detector (`AICodeAssistant.detect_bugs` in `app.py`) -/

/-- The `bugs_found` list built by `detect_bugs` from the request's language
and code (substring checks in source order). -/
def detectBugsFound (language code : String) : List String :=
  (if lowerChars language.toList = "python".toList then
      (if containsSub "except:".toList code.toList then
        ["Bare except clause detected - should catch specific exceptions"] else [])
      ++ (if containsSub "eval(".toList code.toList then
        ["Use of eval() detected - potential security risk"] else [])
      ++ (if containsSub "input(".toList code.toList
             ∧ containsSub "int(".toList code.toList then
        ["Potential ValueError if non-numeric input provided"] else [])
    else [])
  ++ (if lowerChars language.toList = "javascript".toList then
      (if containsSub "==".toList code.toList
          ∧ ¬ containsSub "===".toList code.toList then
        ["Use === instead of == for strict equality"] else [])
      ++ (if containsSub "var ".toList code.toList then
        ["Consider using 'let' or 'const' instead of 'var'"] else [])
    else [])

/-- `AICodeAssistant.detect_bugs`: raises `ValueError` on empty code (`none`),
otherwise returns the bug list and the result text. -/
def detect_bugs (language code : String) : Option (List String × String) :=
  if code = "" then none
  else
    let bugs_found := detectBugsFound language code
    let result :=
      if bugs_found.isEmpty then "No obvious issues detected. Code looks good!"
      else "Potential issues found:\n"
        ++ String.intercalate "\n" (bugs_found.map (fun b => "- " ++ b))
    some (bugs_found, result)

/-! ## Spec-side definitions

Written from the spec's wording, to be compared against the source
embeddings above. -/

/-- Spec-side (claim C4 as stated): total number of OCCURRENCES of the fixed
keywords across all non-blank lines (case-insensitive); a keyword occurring
twice in one line counts twice. -/
def claimOccurrenceCount (code : List Char) : Nat :=
  (((splitLines code).filter nonBlank).map (fun line =>
    (complexity_indicators.map (fun ind => occCount ind (lowerChars line))).sum)).sum

/-- Spec-side (claim C4 amended): for each non-blank line, the number of
keywords from the fixed set occurring (case-insensitively, as substrings) in
that line — each keyword counted at most once per line — summed over lines. -/
def amendedKeywordCount (code : List Char) : Nat :=
  (((splitLines code).filter nonBlank).map (fun line =>
    complexity_indicators.countP (fun ind => containsSub ind (lowerChars line)))).sum

/-- Spec-side (claim C5): the four fixed pattern families, flattened to the
fourteen (family, pattern) pairs in scan order. -/
def securityPatternPairs : List (String × String) :=
  [ ("sql_injection", "SELECT"), ("sql_injection", "INSERT"),
    ("sql_injection", "UPDATE"), ("sql_injection", "DELETE"),
    ("xss", "innerHTML"), ("xss", "document.write"), ("xss", "eval"),
    ("hardcoded_secrets", "password"), ("hardcoded_secrets", "api_key"),
    ("hardcoded_secrets", "secret"), ("hardcoded_secrets", "token"),
    ("unsafe_functions", "exec"), ("unsafe_functions", "system"),
    ("unsafe_functions", "shell_exec") ]

/-- Spec-side (claim C6): the 1-based numbers of the lines whose length
exceeds 120 characters. -/
def longLineNumbers (code : List Char) : List Nat :=
  ((splitLines code).enum.filter (fun il => il.2.length > 120)).map (fun il => il.1 + 1)

/-! ## Concrete fixtures used by counterexamples and witnesses -/

/-- A store holding one deactivated session `"s1"`. -/
def deactivatedStore : SessionStore :=
  [("s1", { session_id := "s1", participants := ["p1"], code_content := "a=1",
            language := LanguageType.python, created_at := 0, last_modified := 0,
            is_active := false })]

/-- A store holding one active session `"s1"` with participant `"p1"`. -/
def activeStore : SessionStore :=
  [("s1", { session_id := "s1", participants := ["p1"], code_content := "a=1",
            language := LanguageType.python, created_at := 0, last_modified := 0,
            is_active := true })]

/-- The concrete code string of the spec's bare-except scenario. -/
def bareExceptCode : String := "try:\n    x = int(input())\nexcept:\n    pass"

/-- A code string whose single line is 121 characters long. -/
def oneLongLine : List Char := List.replicate 121 'a'

/-! ## Helper lemmas -/

lemma storeLookup_storeSet_self (st : SessionStore) (k : String)
    (v : CollaborationSession) : storeLookup (storeSet st k v) k = some v := by
  induction st with
  | nil => simp [storeSet, storeLookup]
  | cons hd rest ih =>
    by_cases h : hd.1 = k
    · simp [storeSet, storeLookup, h]
    · simp [storeSet, storeLookup, h, ih]

lemma storeLookup_storeSet_ne (st : SessionStore) (k k' : String)
    (v : CollaborationSession) (h : k' ≠ k) :
    storeLookup (storeSet st k v) k' = storeLookup st k' := by
  induction st with
  | nil => simp [storeSet, storeLookup, Ne.symm h]
  | cons hd rest ih =>
    by_cases hk : hd.1 = k
    · simp [storeSet, storeLookup, hk, Ne.symm h]
    · simp [storeSet, storeLookup, hk, ih]

lemma filterMap_guard {α β : Type} (p : α → Prop) [DecidablePred p] (f : α → β) :
    ∀ l : List α,
      l.filterMap (fun a => if p a then some (f a) else none) =
        (l.filter (fun a => decide (p a))).map f
  | [] => rfl
  | a :: l => by
    by_cases h : p a <;>
      simp [List.filterMap_cons, List.filter_cons, h, filterMap_guard p f l]

lemma int_score_bound (x : Int) (hx : 0 ≤ x) :
    0 ≤ max 0 (100 - x) ∧ max 0 (100 - x) ≤ 100 :=
  ⟨le_max_left 0 _, max_le (by norm_num) (by omega)⟩

lemma filter_map_pair (g : String → Bool) (t : String) :
    ∀ ps : List String,
      (ps.filter g).map (fun p => securityIssue t p) =
        ((ps.map (fun p => (t, p))).filter (fun q => g q.2)).map
          (fun q => securityIssue q.1 q.2)
  | [] => rfl
  | p :: ps => by
    by_cases h : g p <;> simp [List.filter_cons, h, filter_map_pair g t ps]

lemma securityIssues_flatten (g : String → Bool) :
    ∀ fams : List (String × List String),
      (fams.map (fun tp => (tp.2.filter g).map (fun p => securityIssue tp.1 p))).flatten =
        ((fams.flatMap (fun tp => tp.2.map (fun p => (tp.1, p)))).filter
            (fun q => g q.2)).map (fun q => securityIssue q.1 q.2)
  | [] => rfl
  | (t, ps) :: rest => by
    simp only [List.map_cons, List.flatten_cons, List.flatMap_cons,
      List.filter_append, List.map_append]
    rw [filter_map_pair g t ps, securityIssues_flatten g rest]

/-! ## Claim theorems -/

/-- C2 counterexample: on the store holding only the deactivated session
`"s1"`, `update_collaboration_code` returns `True` and replaces the stored
content — contradicting the claim that it returns false and leaves the
content unchanged for a deactivated session. -/
theorem update_deactivated_counterexample :
    (update_collaboration_code deactivatedStore "s1" "a=2" "p1" 5).1 = true ∧
    (storeLookup (update_collaboration_code deactivatedStore "s1" "a=2" "p1" 5).2
        "s1").map CollaborationSession.code_content = some "a=2" ∧
    (storeLookup deactivatedStore "s1").map CollaborationSession.is_active =
      some false := by
  decide

/-- C2 (amended): `update_collaboration_code` consults only existence of the
session id: whenever the id is present it returns `True` and applies the
content replacement and timestamp — regardless of `is_active` — and it
returns `False` with the store untouched exactly when the id is absent. -/
theorem update_content_existence_only (store : SessionStore)
    (sid new_code uid : String) (now : Nat) :
    (∀ s, storeLookup store sid = some s →
      update_collaboration_code store sid new_code uid now =
        (true, storeSet store sid
          { s with code_content := new_code, last_modified := now })) ∧
    (storeLookup store sid = none →
      update_collaboration_code store sid new_code uid now = (false, store)) := by
  constructor
  · intro s h
    simp [update_collaboration_code, h]
  · intro h
    simp [update_collaboration_code, h]

/-- C2 witness: the amended behavior at the deactivated session `"s1"` and at
the empty store. -/
theorem update_content_existence_only_witness :
    update_collaboration_code deactivatedStore "s1" "a=2" "p1" 5 =
      (true, storeSet deactivatedStore "s1"
        { session_id := "s1", participants := ["p1"], code_content := "a=2",
          language := LanguageType.python, created_at := 0, last_modified := 5,
          is_active := false }) ∧
    update_collaboration_code [] "s1" "a=2" "p1" 5 = (false, []) :=
  ⟨(update_content_existence_only deactivatedStore "s1" "a=2" "p1" 5).1
      { session_id := "s1", participants := ["p1"], code_content := "a=1",
        language := LanguageType.python, created_at := 0, last_modified := 0,
        is_active := false } rfl,
   (update_content_existence_only [] "s1" "a=2" "p1" 5).2 rfl⟩

/-- C3 (evaluation at the failing input): `create_collaboration_session` on a
store whose id `"s1"` already holds an ACTIVE session with participant `"p1"`
does not fail: it silently replaces the session with a fresh one, discarding
the previous participants and content. -/
theorem create_overwrites_active_session :
    (create_collaboration_session activeStore "s1" "b=2" LanguageType.python 7).2 =
      [("s1", { session_id := "s1", participants := [], code_content := "b=2",
                language := LanguageType.python, created_at := 7, last_modified := 7,
                is_active := true })] ∧
    (storeLookup activeStore "s1").map CollaborationSession.participants =
      some ["p1"] ∧
    (storeLookup activeStore "s1").map CollaborationSession.is_active = some true := by
  decide

/-- C7: a successful `update_collaboration_code` replaces the session's
content with the new code and stamps `last_modified` with the update time,
while every other field of the session (id, participants, language,
`created_at`, `is_active` — pinned by the record update) and every other
session in the store are unchanged. -/
theorem update_content_frame (store : SessionStore) (sid new_code uid : String)
    (now : Nat) (s : CollaborationSession) (h : storeLookup store sid = some s) :
    (update_collaboration_code store sid new_code uid now).1 = true ∧
    storeLookup (update_collaboration_code store sid new_code uid now).2 sid =
      some { s with code_content := new_code, last_modified := now } ∧
    ∀ sid', sid' ≠ sid →
      storeLookup (update_collaboration_code store sid new_code uid now).2 sid' =
        storeLookup store sid' := by
  refine ⟨by simp [update_collaboration_code, h], ?_, ?_⟩
  · simp [update_collaboration_code, h, storeLookup_storeSet_self]
  · intro sid' hne
    simp [update_collaboration_code, h, storeLookup_storeSet_ne _ _ _ _ hne]

/-- C7 witness: the frame property evaluated on the store holding the active
session `"s1"`, checking the absent id `"s2"` as the untouched frame. -/
theorem update_content_frame_witness :
    (update_collaboration_code activeStore "s1" "a=2" "p1" 5).1 = true ∧
    storeLookup (update_collaboration_code activeStore "s1" "a=2" "p1" 5).2 "s1" =
      some { session_id := "s1", participants := ["p1"], code_content := "a=2",
             language := LanguageType.python, created_at := 0, last_modified := 5,
             is_active := true } ∧
    storeLookup (update_collaboration_code activeStore "s1" "a=2" "p1" 5).2 "s2" =
      storeLookup activeStore "s2" := by
  have h := update_content_frame activeStore "s1" "a=2" "p1" 5
    { session_id := "s1", participants := ["p1"], code_content := "a=1",
      language := LanguageType.python, created_at := 0, last_modified := 0,
      is_active := true } rfl
  exact ⟨h.1, h.2.1, h.2.2 "s2" (by decide)⟩

/-- C8: joining a session id that is absent from the store returns `none`
(the code's encoding of `SessionNotFoundError`) together with the store
exactly as it was — no session state is created or modified, and no
partially-populated session is returned. -/
theorem join_nonexistent_session (store : SessionStore) (sid uid : String)
    (h : storeLookup store sid = none) :
    join_collaboration_session store sid uid = (none, store) := by
  simp [join_collaboration_session, h]

/-- C8 witness: joining `"s1"` on the empty store. -/
theorem join_nonexistent_session_witness :
    join_collaboration_session [] "s1" "p1" = (none, []) :=
  join_nonexistent_session [] "s1" "p1" rfl

/-- C10: `update_collaboration_code` accepts the edit for any participant
identifier whatsoever — the result and resulting store do not depend on the
`user_id` argument. -/
theorem update_content_ignores_participant (store : SessionStore)
    (sid new_code uid uid2 : String) (now : Nat) (s : CollaborationSession)
    (h : storeLookup store sid = some s) :
    update_collaboration_code store sid new_code uid now =
      (true, storeSet store sid
        { s with code_content := new_code, last_modified := now }) ∧
    update_collaboration_code store sid new_code uid now =
      update_collaboration_code store sid new_code uid2 now := by
  constructor <;> simp [update_collaboration_code, h]

/-- C10 witness: `"p9"` is not a participant of session `"s1"`, yet its edit
is accepted and yields exactly the state an edit by the registered
participant `"p1"` would yield. -/
theorem update_content_ignores_participant_witness :
    ("p9" ∉ ["p1"]) ∧
    update_collaboration_code activeStore "s1" "a=2" "p9" 5 =
      (true, storeSet activeStore "s1"
        { session_id := "s1", participants := ["p1"], code_content := "a=2",
          language := LanguageType.python, created_at := 0, last_modified := 5,
          is_active := true }) ∧
    update_collaboration_code activeStore "s1" "a=2" "p9" 5 =
      update_collaboration_code activeStore "s1" "a=2" "p1" 5 :=
  ⟨by decide,
   (update_content_ignores_participant activeStore "s1" "a=2" "p9" "p1" 5
      { session_id := "s1", participants := ["p1"], code_content := "a=1",
        language := LanguageType.python, created_at := 0, last_modified := 0,
        is_active := true } rfl).1,
   (update_content_ignores_participant activeStore "s1" "a=2" "p9" "p1" 5
      { session_id := "s1", participants := ["p1"], code_content := "a=1",
        language := LanguageType.python, created_at := 0, last_modified := 0,
        is_active := true } rfl).2⟩

/-- C1: every score the analyzer can produce lies in [0, 100]: the three
fallback analyses for every code string and language, and the Python-path
score formulas for every combination of tool findings. -/
theorem analyzer_scores_bounded :
    (∀ code lang now, 0 ≤ (basic_complexity_analysis code lang now).score ∧
      (basic_complexity_analysis code lang now).score ≤ 100) ∧
    (∀ code lang now, 0 ≤ (basic_security_analysis code lang now).score ∧
      (basic_security_analysis code lang now).score ≤ 100) ∧
    (∀ code lang now, 0 ≤ (basic_style_analysis code lang now).score ∧
      (basic_style_analysis code lang now).score ≤ 100) ∧
    (∀ bs : List Nat,
      0 ≤ pythonComplexityScore bs ∧ pythonComplexityScore bs ≤ 100) ∧
    (∀ nh nm nl : Nat,
      0 ≤ pythonSecurityScore nh nm nl ∧ pythonSecurityScore nh nm nl ≤ 100) ∧
    (∀ n : Nat, 0 ≤ pythonStyleScore n ∧ pythonStyleScore n ≤ 100) := by
  refine ⟨?_, ?_, ?_, ?_, ?_, ?_⟩
  · intro code lang now
    have h := int_score_bound ((complexityCount code : Int) * 2) (by positivity)
    simpa [basic_complexity_analysis] using h
  · intro code lang now
    have h := int_score_bound (((securityIssuesOf code).length : Int) * 10)
      (by positivity)
    simpa [basic_security_analysis] using h
  · intro code lang now
    have h := int_score_bound (((styleIssuesOf code).length : Int) * 5)
      (by positivity)
    simpa [basic_style_analysis] using h
  · intro bs
    simp only [pythonComplexityScore]
    have havg : (0 : ℚ) ≤
        (if bs.isEmpty then (0 : ℚ) else (bs.sum : ℚ) / (bs.length : ℚ)) := by
      split
      · exact le_refl 0
      · positivity
    constructor
    · exact le_max_left _ _
    · refine max_le (by norm_num) ?_
      nlinarith [havg]
  · intro nh nm nl
    have h := int_score_bound ((nh : Int) * 20 + (nm : Int) * 10 + (nl : Int) * 5)
      (by positivity)
    simpa [pythonSecurityScore] using h
  · intro n
    have h := int_score_bound ((n : Int) * 2) (by positivity)
    simpa [pythonStyleScore] using h

/-- C4 counterexample: on the single-line input `"if a: if b"` the keyword
`if` OCCURS twice, yet the analyzer counts it once (at most one count per
keyword per line), so the score is 98, not the 96 the occurrence-count
formula of the claim demands. -/
theorem complexity_occurrence_counterexample :
    (basic_complexity_analysis ("if a: if b".toList) LanguageType.go 0).score ≠
      max 0 (100 - (claimOccurrenceCount ("if a: if b".toList) : Int) * 2) := by
  decide

/-- C4 (amended): the fallback complexity score is
`max(0, 100 − 2 × count)` where `count` counts, per non-blank line, each
keyword of the fixed set AT MOST ONCE (case-insensitive substring test), and
exactly one generic suggestion is emitted iff `count > 10`; no issues are
ever emitted. -/
theorem complexity_fallback_amended (code : List Char) (lang : LanguageType)
    (now : Nat) :
    (basic_complexity_analysis code lang now).score =
      max 0 (100 - (amendedKeywordCount code : Int) * 2) ∧
    (basic_complexity_analysis code lang now).suggestions.length =
      (if amendedKeywordCount code > 10 then 1 else 0) ∧
    (basic_complexity_analysis code lang now).issues = [] := by
  have hcount : complexityCount code = amendedKeywordCount code := by
    simp [complexityCount, amendedKeywordCount, List.countP_eq_length_filter]
  refine ⟨?_, ?_, rfl⟩
  · simp [basic_complexity_analysis, hcount]
  · simp only [basic_complexity_analysis, hcount]
    split <;> simp

/-- C5: the fallback security analysis records exactly one medium-severity
issue per (family, pattern) pair whose pattern occurs case-insensitively in
the raw text — in scan order over the four fixed families — and scores
`max(0, 100 − 10 × issue-count)`. -/
theorem security_fallback_spec (code : List Char) (lang : LanguageType)
    (now : Nat) :
    (basic_security_analysis code lang now).issues =
      (securityPatternPairs.filter
          (fun q => containsSub (lowerChars q.2.toList) (lowerChars code))).map
        (fun q => securityIssue q.1 q.2) ∧
    (∀ i ∈ (basic_security_analysis code lang now).issues, i.severity = "medium") ∧
    (basic_security_analysis code lang now).score =
      max 0 (100 - ((basic_security_analysis code lang now).issues.length : Int) * 10) := by
  have hpairs :
      security_patterns.flatMap (fun tp => tp.2.map (fun p => (tp.1, p))) =
        securityPatternPairs := by decide
  have hflat : securityIssuesOf code =
      (securityPatternPairs.filter
          (fun q => containsSub (lowerChars q.2.toList) (lowerChars code))).map
        (fun q => securityIssue q.1 q.2) := by
    calc securityIssuesOf code
        = ((security_patterns.flatMap (fun tp => tp.2.map (fun p => (tp.1, p)))).filter
              (fun q => containsSub (lowerChars q.2.toList) (lowerChars code))).map
            (fun q => securityIssue q.1 q.2) :=
          securityIssues_flatten
            (fun p => containsSub (lowerChars p.toList) (lowerChars code))
            security_patterns
      _ = _ := by rw [hpairs]
  refine ⟨?_, ?_, rfl⟩
  · simpa [basic_security_analysis] using hflat
  · intro i hi
    have hi' : i ∈ (securityPatternPairs.filter
        (fun q => containsSub (lowerChars q.2.toList) (lowerChars code))).map
          (fun q => securityIssue q.1 q.2) := by
      simpa [basic_security_analysis, hflat] using hi
    obtain ⟨q, _, rfl⟩ := List.mem_map.1 hi'
    rfl

/-- C5 witness: on the input `"SELECT a"` the analysis records exactly the
one medium-severity SQL issue and scores 90. -/
theorem security_fallback_spec_witness :
    (basic_security_analysis ("SELECT a".toList) LanguageType.go 0).issues =
      [securityIssue "sql_injection" "SELECT"] ∧
    (securityIssue "sql_injection" "SELECT").severity = "medium" ∧
    (basic_security_analysis ("SELECT a".toList) LanguageType.go 0).score = 90 := by
  have h := security_fallback_spec ("SELECT a".toList) LanguageType.go 0
  have hiss : (basic_security_analysis ("SELECT a".toList) LanguageType.go 0).issues =
      [securityIssue "sql_injection" "SELECT"] := by
    rw [h.1]; decide
  refine ⟨hiss, h.2.1 _ ?_, ?_⟩
  · rw [hiss]; exact List.mem_singleton.2 rfl
  · rw [h.2.2, hiss]; decide

/-- C6: the fallback style analysis flags exactly the lines longer than 120
characters, each as one low-severity `line_too_long` issue, scoring
`max(0, 100 − 5 × issue-count)`; with exactly one long line the result is
one issue and score 95. -/
theorem style_fallback_spec (code : List Char) (lang : LanguageType) (now : Nat) :
    (basic_style_analysis code lang now).issues.map (fun i => i.line) =
      (longLineNumbers code).map some ∧
    (∀ i ∈ (basic_style_analysis code lang now).issues,
      i.severity = "low" ∧ i.issueType = "line_too_long") ∧
    (basic_style_analysis code lang now).issues.length =
      (longLineNumbers code).length ∧
    (basic_style_analysis code lang now).score =
      max 0 (100 - ((longLineNumbers code).length : Int) * 5) ∧
    ((longLineNumbers code).length = 1 →
      (basic_style_analysis code lang now).issues.length = 1 ∧
      (basic_style_analysis code lang now).score = 95) := by
  have hiss : styleIssuesOf code =
      ((splitLines code).enum.filter (fun il => il.2.length > 120)).map
        (fun il => { issueType := "line_too_long", line := some (il.1 + 1),
                     length := some il.2.length, pattern := none,
                     severity := "low" : AnalysisIssue }) :=
    filterMap_guard _ _ _
  have hlen : (basic_style_analysis code lang now).issues.length =
      (longLineNumbers code).length := by
    simp [basic_style_analysis, hiss, longLineNumbers]
  refine ⟨?_, ?_, hlen, ?_, ?_⟩
  · simp [basic_style_analysis, hiss, longLineNumbers, Function.comp]
  · intro i hi
    have hi' := by simpa [basic_style_analysis, hiss] using hi
    obtain ⟨a, b, -, rfl⟩ := hi'
    exact ⟨rfl, rfl⟩
  · have : (basic_style_analysis code lang now).score =
        max 0 (100 - ((basic_style_analysis code lang now).issues.length : Int) * 5) := by
      simp [basic_style_analysis]
    rw [this, hlen]
  · intro h1
    refine ⟨by rw [hlen, h1], ?_⟩
    have : (basic_style_analysis code lang now).score =
        max 0 (100 - ((basic_style_analysis code lang now).issues.length : Int) * 5) := by
      simp [basic_style_analysis]
    rw [this, hlen, h1]
    decide

set_option maxRecDepth 4000 in
/-- C6 witness: the 121-character single-line input yields exactly one style
issue and score 95. -/
theorem style_fallback_spec_witness :
    (longLineNumbers oneLongLine).length = 1 ∧
    (basic_style_analysis oneLongLine LanguageType.go 0).issues.length = 1 ∧
    (basic_style_analysis oneLongLine LanguageType.go 0).score = 95 := by
  have h := style_fallback_spec oneLongLine LanguageType.go 0
  have h1 : (longLineNumbers oneLongLine).length = 1 := by decide
  exact ⟨h1, (h.2.2.2.2 h1).1, (h.2.2.2.2 h1).2⟩

/-- C9: on the concrete input
`"try:\n    x = int(input())\nexcept:\n    pass"` with language `python`,
`detect_bugs` reports the bare-except issue (alongside the int/input one). -/
theorem detect_bugs_flags_bare_except :
    detect_bugs "python" bareExceptCode =
      some (["Bare except clause detected - should catch specific exceptions",
             "Potential ValueError if non-numeric input provided"],
        "Potential issues found:\n- Bare except clause detected - should catch specific exceptions\n- Potential ValueError if non-numeric input provided") ∧
    "Bare except clause detected - should catch specific exceptions" ∈
      detectBugsFound "python" bareExceptCode := by
  constructor
  · decide
  · decide

end AICA
